import Mathlib

/-!
Verification of the Smart Bot Stats API (`src/api.py`).

The service keeps two MongoDB connections, serves one static HTML page and
three read-only JSON endpoints (`/api/stats`, `/api/banlist`,
`/api/adminlist`).  This file gives a shallow embedding of the module:

* instants are modelled as `Int` seconds since the Unix epoch; Python
  `datetime.utcnow()` is a reading of an ambient clock, `timedelta`
  subtraction is integer subtraction, `isoformat`/`strftime` are implemented
  as executable formatting functions on epoch seconds;
* Mongo documents are records whose optional fields are `Option BVal`,
  where `BVal` is the sum of the value shapes the handlers meet
  (string / datetime / integer / null); `dict.get` is `Option.getD`,
  `dict[k]` is a fallible lookup, and `.strftime` on a non-datetime value is
  the Python `AttributeError`, modelled in the `Except` monad;
* each endpoint handler is translated statement by statement from the
  source; its `try ... except` boundary is `handlerBoundary`, which maps any
  internal error to the handler's fixed `HTTPException(500, detail)`;
* the `get_stats` body threads an explicit clock stream `Nat → Int` so that
  the number of clock readings it performs is part of its result.
-/

namespace SmartTool

/-! ## Time formatting (model of `datetime.isoformat` / `strftime`) -/

/-- Zero-pad a natural number to two digits, as Python `%d`-style fields do. -/
def pad2 (n : Nat) : String :=
  if n < 10 then "0" ++ toString n else toString n

/-- Zero-pad a year to four digits (`%Y`). -/
def pad4 (n : Nat) : String :=
  if n < 10 then "000" ++ toString n
  else if n < 100 then "00" ++ toString n
  else if n < 1000 then "0" ++ toString n
  else toString n

/-- Convert a count of days since 1970-01-01 to a civil `(year, month, day)`
triple (proleptic Gregorian calendar). -/
def civilFromDays (z0 : Int) : Int × Nat × Nat :=
  let z : Int := z0 + 719468
  let era : Int := (if 0 ≤ z then z else z - 146096) / 146097
  let doe : Nat := (z - era * 146097).toNat
  let yoe : Nat := (doe - doe / 1460 + doe / 36524 - doe / 146096) / 365
  let y : Int := (yoe : Int) + era * 400
  let doy : Nat := doe - (365 * yoe + yoe / 4 - yoe / 100)
  let mp : Nat := (5 * doy + 2) / 153
  let d : Nat := doy - (153 * mp + 2) / 5 + 1
  let m : Nat := if mp < 10 then mp + 3 else mp - 9
  (if m ≤ 2 then y + 1 else y, m, d)

/-- `strftime("%Y-%m-%d")` on an instant in epoch seconds. -/
def fmtDate (t : Int) : String :=
  let (y, m, d) := civilFromDays (Int.fdiv t 86400)
  pad4 y.toNat ++ "-" ++ pad2 m ++ "-" ++ pad2 d

/-- `strftime("%H:%M:%S")` on an instant in epoch seconds. -/
def fmtTime (t : Int) : String :=
  let s : Nat := (Int.emod t 86400).toNat
  pad2 (s / 3600) ++ ":" ++ pad2 (s % 3600 / 60) ++ ":" ++ pad2 (s % 60)

/-- `datetime.isoformat()` on an instant in epoch seconds. -/
def isoformat (t : Int) : String :=
  fmtDate t ++ "T" ++ fmtTime t

/-! ## Mongo document values -/

/-- The shapes of field values the handlers can meet in a fetched document:
a string, a BSON datetime (epoch seconds), an integer, or null. -/
inductive BVal where
  | vstr : String → BVal
  | vdt : Int → BVal
  | vint : Int → BVal
  | vnull : BVal
  deriving DecidableEq, Repr

/-- Python `str()` on a document value (used for `str(user["user_id"])`). -/
def pyStr : BVal → String
  | .vstr s => s
  | .vdt t => fmtDate t ++ " " ++ fmtTime t
  | .vint n => toString n
  | .vnull => "None"

/-- Python `dict.get(key, default)`: the stored value when the key is
present, the default otherwise. -/
def pyGetD (field : Option BVal) (default : BVal) : BVal :=
  field.getD default

/-- Python `dict[key]`: the stored value, or a `KeyError` when absent. -/
def pyIndex (field : Option BVal) (key : String) : Except String BVal :=
  match field with
  | some v => .ok v
  | none => .error ("KeyError: " ++ key)

/-- Python `value.strftime("%Y-%m-%d")`: defined on datetimes, an
`AttributeError` on anything else. -/
def strftimeDate (v : BVal) : Except String String :=
  match v with
  | .vdt t => .ok (fmtDate t)
  | _ => .error "AttributeError: strftime"

/-- Python `value.strftime("%H:%M:%S")`: defined on datetimes, an
`AttributeError` on anything else. -/
def strftimeTime (v : BVal) : Except String String :=
  match v with
  | .vdt t => .ok (fmtTime t)
  | _ => .error "AttributeError: strftime"

/-- `isinstance(v, datetime)`. -/
def isDatetime (v : Option BVal) : Bool :=
  match v with
  | some (.vdt _) => true
  | _ => false

/-! ## HTTP boundary -/

/-- Outcome of one request as seen by the caller: either a successful JSON
body, or an `HTTPException(status, detail)` turned into an error response. -/
inductive HttpResult (α : Type) where
  | success : α → HttpResult α
  | httpError : Nat → String → HttpResult α
  deriving DecidableEq, Repr

/-- The `try ... except Exception as e: raise HTTPException(500, detail)`
wrapper shared by the three API handlers: a successful body is returned as
is, any internal failure becomes a 500 with the handler's fixed detail
string (the exception value is only logged, never returned). -/
def handlerBoundary {α : Type} (fixedDetail : String) (body : Except String α) :
    HttpResult α :=
  match body with
  | .ok a => .success a
  | .error _ => .httpError 500 fixedDetail

/-! ## Activity records and `/api/stats` (`get_stats`, api.py lines 79-120) -/

/-- One document of the `user_activity` collection.  Fields are optional
because a Mongo document need not carry them; the queries in `get_stats`
match on their presence and value. -/
structure ActivityRecord where
  user_id : Int
  is_group : Option Bool
  last_activity : Option Int
  deriving DecidableEq, Repr

/-- Filter `{"is_group": b}`: matches documents whose `is_group` field is
present and equal to `b`. -/
def matchIsGroup (b : Bool) (r : ActivityRecord) : Bool :=
  r.is_group = some b

/-- Filter `{"is_group": b, "last_activity": {"$gte": cutoff}}`: matches
documents with `is_group = b` and a `last_activity` at or after `cutoff`. -/
def matchActiveSince (b : Bool) (cutoff : Int) (r : ActivityRecord) : Bool :=
  r.is_group = some b &&
    match r.last_activity with
    | some t => cutoff ≤ t
    | none => false

/-- `collection.count_documents(filter)` over a snapshot of the collection. -/
def count_documents (db : List ActivityRecord) (filter : ActivityRecord → Bool) :
    Nat :=
  db.countP filter

/-- The `stats` object of the `/api/stats` response body. -/
structure Stats where
  daily_users : Nat
  weekly_users : Nat
  monthly_users : Nat
  yearly_users : Nat
  total_users : Nat
  total_groups : Nat
  deriving DecidableEq, Repr

/-- The `/api/stats` response body. -/
structure StatsResponse where
  api_owner : String
  api_dev : String
  stats : Stats
  timestamp : String
  deriving DecidableEq, Repr

/-- `datetime.utcnow()` as a reading of an ambient clock stream: returns the
instant at the current reading index and advances the index. -/
def utcnow (clock : Nat → Int) (i : Nat) : Int × Nat :=
  (clock i, i + 1)

/-- The body of `get_stats` (api.py lines 82-114), translated statement by
statement over a snapshot `db` of `user_activity` and a clock stream; the
second component is the number of clock readings performed. -/
def statsBody (db : List ActivityRecord) (clock : Nat → Int) :
    StatsResponse × Nat :=
  let (now, i1) := utcnow clock 0
  let daily_users := count_documents db (matchActiveSince false (now - 86400))
  let weekly_users := count_documents db (matchActiveSince false (now - 604800))
  let monthly_users := count_documents db (matchActiveSince false (now - 2592000))
  let yearly_users := count_documents db (matchActiveSince false (now - 31536000))
  let total_users := count_documents db (matchIsGroup false)
  let total_groups := count_documents db (matchIsGroup true)
  ({ api_owner := "@ISmartCoder"
     api_dev := "@TheSmartDev"
     stats :=
       { daily_users := daily_users
         weekly_users := weekly_users
         monthly_users := monthly_users
         yearly_users := yearly_users
         total_users := total_users
         total_groups := total_groups }
     timestamp := isoformat now }, i1)

/-- The `/api/stats` handler: fetching the snapshot may fail (a database
error); the `try/except` boundary converts any failure into the fixed
`HTTPException(500, "Failed to retrieve stats")`. -/
def get_stats (fetch : Except String (List ActivityRecord)) (clock : Nat → Int) :
    HttpResult StatsResponse :=
  handlerBoundary "Failed to retrieve stats"
    (fetch.map fun db => (statsBody db clock).1)

/-! ## Banned users and `/api/banlist` (`get_banlist`, api.py lines 122-154) -/

/-- One document of the `banned_users` collection. -/
structure BannedUser where
  user_id : Option BVal
  username : Option BVal
  reason : Option BVal
  ban_date : Option BVal
  deriving DecidableEq, Repr

/-- One entry of the `banned_users` output list. -/
structure BanOut where
  user_id : BVal
  full_name : BVal
  reason : BVal
  ban_date : BVal
  deriving DecidableEq, Repr

/-- The element mapping of the `banned_users` list comprehension
(api.py lines 139-144): `user["user_id"]` may raise `KeyError`; the stored
`username` lands in the output field `full_name`, falling back to
`str(user["user_id"])`; `reason` and `ban_date` default to `"Undefined"`. -/
def mapBanned (u : BannedUser) : Except String BanOut := do
  let uid ← pyIndex u.user_id "user_id"
  pure
    { user_id := uid
      full_name := pyGetD u.username (.vstr (pyStr uid))
      reason := pyGetD u.reason (.vstr "Undefined")
      ban_date := pyGetD u.ban_date (.vstr "Undefined") }

/-- A Python list comprehension over a fallible element mapping: the first
exception aborts the whole comprehension, otherwise the outputs keep the
order of the inputs. -/
def mapE {α β : Type} (f : α → Except String β) : List α → Except String (List β)
  | [] => .ok []
  | x :: xs => do
    let y ← f x
    let ys ← mapE f xs
    pure (y :: ys)

/-- The `/api/banlist` response body. -/
structure BanlistResponse where
  api_owner : String
  api_dev : String
  banned_users : List BanOut
  total_banned : Nat
  timestamp : String
  deriving DecidableEq, Repr

/-- The body of `get_banlist` (api.py lines 125-148) over a snapshot of the
`banned_users` collection: an empty fetch returns the explicit empty
response, otherwise the comprehension maps every record and `total_banned`
is `len(banned_list)`. -/
def banlistBody (db : List BannedUser) (now : Int) :
    Except String BanlistResponse :=
  if db.isEmpty then
    .ok
      { api_owner := "@ISmartCoder"
        api_dev := "@TheSmartDev"
        banned_users := []
        total_banned := 0
        timestamp := isoformat now }
  else do
    let outs ← mapE mapBanned db
    pure
      { api_owner := "@ISmartCoder"
        api_dev := "@TheSmartDev"
        banned_users := outs
        total_banned := db.length
        timestamp := isoformat now }

/-- The `/api/banlist` handler with its `try/except` boundary. -/
def get_banlist (fetch : Except String (List BannedUser)) (now : Int) :
    HttpResult BanlistResponse :=
  handlerBoundary "Failed to retrieve banlist" (fetch.bind fun db => banlistBody db now)

/-! ## Admin records and `/api/adminlist` (`get_adminlist`, api.py 156-200) -/

/-- One document of the `auth_admins` collection, projected to the fields
the query selects. -/
structure AdminRecord where
  user_id : Option BVal
  title : Option BVal
  username : Option BVal
  full_name : Option BVal
  auth_date : Option BVal
  auth_time : Option BVal
  auth_by : Option BVal
  deriving DecidableEq, Repr

/-- One entry of the `admins` output list. -/
structure AdminOut where
  user_id : BVal
  full_name : BVal
  title : BVal
  username : BVal
  auth_date : String
  auth_time : String
  auth_by : BVal
  deriving DecidableEq, Repr

/-- The constant synthetic owner entry prepended to the admin list
(api.py lines 164-174); the `full_name` string reproduces the exact
characters of the source literal. -/
def ownerEntry : AdminOut :=
  { user_id := .vint 7666341631
    full_name := .vstr ("Abir Arafat Chawdhury " ++
      "ðŸ‡§ðŸ‡©")
    title := .vstr "Owner"
    username := .vstr "@ISmartCoder"
    auth_date := "Infinity"
    auth_time := "Infinity"
    auth_by := .vstr "Abir Arafat Chawdhury" }

/-- The element mapping of the `admins` list comprehension (api.py lines
177-185), translated expression by expression.  `admin["user_id"]` and
`admin["title"]` may raise `KeyError`; `auth_date` is formatted
`"%Y-%m-%d"` only under `isinstance(admin.get("auth_date"), datetime)` and
is the literal `"Unknown"` otherwise; `auth_time` defaults to
`datetime.utcnow()` and its `strftime` raises on a non-datetime value. -/
def mapAdmin (now : Int) (r : AdminRecord) : Except String AdminOut := do
  let uid ← pyIndex r.user_id "user_id"
  let title ← pyIndex r.title "title"
  let auth_date_out ←
    if isDatetime r.auth_date then
      strftimeDate (pyGetD r.auth_date (pyGetD r.auth_time (.vdt now)))
    else
      pure "Unknown"
  let auth_time_out ← strftimeTime (pyGetD r.auth_time (.vdt now))
  pure
    { user_id := uid
      full_name := pyGetD r.full_name (.vstr "Unknown")
      title := title
      username := pyGetD r.username (.vstr "None")
      auth_date := auth_date_out
      auth_time := auth_time_out
      auth_by := pyGetD r.auth_by (.vstr "Unknown") }

/-- The `/api/adminlist` response body. -/
structure AdminlistResponse where
  api_owner : String
  api_dev : String
  admins : List AdminOut
  total_admins : Nat
  timestamp : String
  deriving DecidableEq, Repr

/-- The body of `get_adminlist` (api.py lines 159-194): the fetched records
are mapped in order and appended after the synthetic owner entry;
`total_admins` is the length of the assembled list. -/
def adminlistBody (db : List AdminRecord) (now : Int) :
    Except String AdminlistResponse := do
  let outs ← mapE (mapAdmin now) db
  let admin_list := ownerEntry :: outs
  pure
    { api_owner := "@ISmartCoder"
      api_dev := "@TheSmartDev"
      admins := admin_list
      total_admins := admin_list.length
      timestamp := isoformat now }

/-- The `/api/adminlist` handler with its `try/except` boundary. -/
def get_adminlist (fetch : Except String (List AdminRecord)) (now : Int) :
    HttpResult AdminlistResponse :=
  handlerBoundary "Failed to retrieve adminlist"
    (fetch.bind fun db => adminlistBody db now)

/-! ## `GET /` (`get_index`, api.py lines 66-77) -/

/-- Failure modes of reading `index.html`: the file is absent
(`FileNotFoundError`) or some other read error occurred. -/
inductive ReadErr where
  | fileNotFound : ReadErr
  | other : String → ReadErr
  deriving DecidableEq, Repr

/-- The `/` handler: the page content on success; `FileNotFoundError` is
handled as a fixed 404, any other failure as a fixed 500. -/
def get_index (readFile : Except ReadErr String) : HttpResult String :=
  match readFile with
  | .ok html => .success html
  | .error .fileNotFound => .httpError 404 "Index file not found"
  | .error (.other _) => .httpError 500 "Failed to serve index page"

/-! ## Application startup and the lifespan gate (api.py lines 14, 50-64)

The `lifespan` context manager (lines 50-62) pings both Mongo clients
before its `yield`.  Whether it ever runs is decided by how it is attached
to the application: FastAPI executes, before any worker accepts a request,
exactly the startup phase of the lifespan handed to the `FastAPI(...)`
constructor; a plain Python attribute assignment `app.lifespan = ...` made
after construction stores an instance attribute that neither FastAPI nor
Starlette ever consults (the server reads only the router's lifespan
context, fixed at construction).  The model below keeps both slots so this
distinction is explicit. -/

/-- A database command issued against a named client. -/
inductive DbCommand where
  | ping : String → DbCommand
  deriving DecidableEq, Repr

/-- The commands the startup phase of `lifespan` issues before `yield`
(api.py lines 53-54): a `ping` on each of the two clients. -/
def lifespanStartupCommands : List DbCommand :=
  [.ping "MONGO_CLIENT", .ping "mongo_client"]

/-- The application object: the lifespan registered through the
`FastAPI(...)` constructor, and any `lifespan` instance attribute assigned
afterwards. -/
structure FastAPIApp where
  title : String
  description : String
  constructorLifespan : Option (List DbCommand)
  attrLifespan : Option (List DbCommand)
  deriving DecidableEq, Repr

/-- `app = FastAPI(title=..., description=...)` (api.py line 14): no
`lifespan` argument is passed to the constructor. -/
def appInit : FastAPIApp :=
  { title := "Smart Bot Stats API"
    description := "API for retrieving bot usage statistics"
    constructorLifespan := none
    attrLifespan := none }

/-- `app.lifespan = lifespan` (api.py line 64): a plain attribute
assignment on the already-constructed application object. -/
def appAfterAssign : FastAPIApp :=
  { appInit with attrLifespan := some lifespanStartupCommands }

/-- The database commands the server executes before any worker handles
any request: exactly the startup phase of the constructor-registered
lifespan, and nothing when none was registered.  Modelled from the
FastAPI/Starlette contract the spec relies on; the `lifespan` instance
attribute plays no part in it. -/
def startupCommands (a : FastAPIApp) : List DbCommand :=
  a.constructorLifespan.getD []

/-! ## Derived description and concrete fixtures

`authDateStr` is the closed form of the `auth_date` output field, proved
equal to the translated expression in `mapAdmin_ok_char` below.  The
fixtures are concrete database states and clocks used to instantiate the
theorems. -/

/-- Closed form of the `auth_date` output policy: the stored value formatted
`%Y-%m-%d` exactly when it is a datetime, the literal `"Unknown"` in every
other case. -/
def authDateStr (ad : Option BVal) : String :=
  match ad with
  | some (.vdt d) => fmtDate d
  | _ => "Unknown"

/-- Fixture: one individual (non-group) activity record last active at
instant 1000. -/
def dbFix : List ActivityRecord :=
  [{ user_id := 1, is_group := some false, last_activity := some 1000 }]

/-- Fixture: a clock stream frozen at instant 1000. -/
def clockFix : Nat → Int := fun _ => 1000

/-- Fixture: a clock stream that agrees with `clockFix` at reading 0 only. -/
def clockFix2 : Nat → Int := fun n => if n = 0 then 1000 else 5

/-- Fixture: a banned-user document carrying only `user_id`. -/
def banFix : BannedUser :=
  { user_id := some (.vint 42), username := none, reason := none, ban_date := none }

/-- Output entry for `banFix`. -/
def banOutFix : BanOut :=
  { user_id := .vint 42, full_name := .vstr "42", reason := .vstr "Undefined",
    ban_date := .vstr "Undefined" }

/-- Fixture: an admin document whose `auth_date` is a string (not a
datetime) while a usable datetime `auth_time` is present. -/
def admFix : AdminRecord :=
  { user_id := some (.vint 9), title := some (.vstr "Moderator"), username := none,
    full_name := none, auth_date := some (.vstr "2024-01-01"),
    auth_time := some (.vdt 3600), auth_by := none }

/-- Output entry for `admFix`: `auth_date` renders `"Unknown"` although
`auth_time` was usable. -/
def admOutFix : AdminOut :=
  { user_id := .vint 9, full_name := .vstr "Unknown", title := .vstr "Moderator",
    username := .vstr "None", auth_date := "Unknown", auth_time := "01:00:00",
    auth_by := .vstr "Unknown" }

/-- Adminlist response for an empty admin collection at instant 0. -/
def admRespFix : AdminlistResponse :=
  { api_owner := "@ISmartCoder", api_dev := "@TheSmartDev", admins := [ownerEntry],
    total_admins := 1, timestamp := isoformat 0 }

/-- Banlist response for the collection `[banFix]` at instant 0. -/
def banRespFix : BanlistResponse :=
  { api_owner := "@ISmartCoder", api_dev := "@TheSmartDev",
    banned_users := [banOutFix], total_banned := 1, timestamp := isoformat 0 }

/-- Adminlist response for the collection `[admFix]` at instant 0. -/
def admRespFix2 : AdminlistResponse :=
  { api_owner := "@ISmartCoder", api_dev := "@TheSmartDev",
    admins := [ownerEntry, admOutFix], total_admins := 2, timestamp := isoformat 0 }

/-! ## Helper lemmas -/

/-- A record matching the activity filter at a later cutoff also matches it
at any earlier cutoff. -/
theorem matchActiveSince_mono {b : Bool} {c c' : Int} (hc : c' ≤ c)
    (r : ActivityRecord) (h : matchActiveSince b c r = true) :
    matchActiveSince b c' r = true := by
  unfold matchActiveSince at h ⊢
  cases hla : r.last_activity with
  | none => rw [hla] at h; simp at h
  | some t =>
    rw [hla] at h
    simp only [Bool.and_eq_true, decide_eq_true_eq] at h ⊢
    exact ⟨h.1, le_trans hc h.2⟩

/-- When every record carries an `is_group` value, the two unconditional
counts partition the collection. -/
theorem countP_group_split (l : List ActivityRecord)
    (h : ∀ r ∈ l, (r.is_group).isSome) :
    l.countP (matchIsGroup false) + l.countP (matchIsGroup true) = l.length := by
  induction l with
  | nil => simp
  | cons x xs ih =>
    have hx := h x (by simp)
    have ihx := ih (fun r hr => h r (by simp [hr]))
    simp only [List.countP_cons, List.length_cons]
    cases hig : x.is_group with
    | none => rw [hig] at hx; simp at hx
    | some b =>
      cases b <;> simp [matchIsGroup, hig] <;> omega

/-- A successful comprehension produces one output per input. -/
theorem mapE_ok_length {α β : Type} (f : α → Except String β) :
    ∀ (l : List α) (out : List β), mapE f l = .ok out → out.length = l.length := by
  intro l
  induction l with
  | nil =>
    intro out h
    simp only [mapE] at h
    cases h
    rfl
  | cons x xs ih =>
    intro out h
    simp only [mapE, bind, Except.bind] at h
    cases hfx : f x with
    | error e => rw [hfx] at h; cases h
    | ok y =>
      rw [hfx] at h
      cases hrest : mapE f xs with
      | error e => rw [hrest] at h; cases h
      | ok ys =>
        rw [hrest] at h
        cases h
        simp [ih ys hrest]

/-- When the required keys are present and the `auth_time` slot formats
successfully, `mapAdmin` succeeds and its `auth_date` output follows
`authDateStr`. -/
theorem mapAdmin_ok_char (now : Int) (r : AdminRecord) (uid title : BVal)
    (ato : String)
    (h1 : r.user_id = some uid) (h2 : r.title = some title)
    (h3 : strftimeTime (pyGetD r.auth_time (.vdt now)) = .ok ato) :
    mapAdmin now r =
      .ok
        { user_id := uid
          full_name := pyGetD r.full_name (.vstr "Unknown")
          title := title
          username := pyGetD r.username (.vstr "None")
          auth_date := authDateStr r.auth_date
          auth_time := ato
          auth_by := pyGetD r.auth_by (.vstr "Unknown") } := by
  unfold mapAdmin
  rw [show pyIndex r.user_id "user_id" = Except.ok uid by rw [h1]; rfl]
  rw [show pyIndex r.title "title" = Except.ok title by rw [h2]; rfl]
  simp only [bind, Except.bind]
  simp only [pyGetD] at h3
  rcases had : r.auth_date with _ | v
  · simp [isDatetime, had, authDateStr, h3, pyGetD, pure, Except.pure]
  · cases v <;>
      simp [isDatetime, had, authDateStr, h3, pyGetD, strftimeDate, pure,
        Except.pure]

/-- When the `auth_time` slot fails to format, `mapAdmin` propagates the
failure. -/
theorem mapAdmin_err_char (now : Int) (r : AdminRecord) (uid title : BVal)
    (e : String)
    (h1 : r.user_id = some uid) (h2 : r.title = some title)
    (h3 : strftimeTime (pyGetD r.auth_time (.vdt now)) = .error e) :
    mapAdmin now r = .error e := by
  unfold mapAdmin
  rw [show pyIndex r.user_id "user_id" = Except.ok uid by rw [h1]; rfl]
  rw [show pyIndex r.title "title" = Except.ok title by rw [h2]; rfl]
  simp only [bind, Except.bind]
  simp only [pyGetD] at h3
  rcases had : r.auth_date with _ | v
  · simp [isDatetime, had, h3, pyGetD, pure, Except.pure]
  · cases v <;>
      simp [isDatetime, had, h3, pyGetD, strftimeDate, pure, Except.pure]

/-! ## Claims -/

/-- Claim C1: the claim requires a liveness `ping` against both database
clients to succeed before any worker handles any request.  The code defines
the `lifespan` context manager with exactly that check (its startup phase
issues both pings), but attaches it by the plain attribute assignment
`app.lifespan = lifespan` (api.py line 64) made after the application was
constructed without a `lifespan` argument; the server consults only the
constructor-registered lifespan, so the set of database commands executed
before serving is empty and no request is gated on the liveness check. -/
theorem c1_startup_liveness_gate_missing :
    startupCommands appAfterAssign = [] ∧
    appAfterAssign.attrLifespan = some lifespanStartupCommands ∧
    lifespanStartupCommands = [.ping "MONGO_CLIENT", .ping "mongo_client"] ∧
    lifespanStartupCommands ≠ [] :=
  ⟨rfl, rfl, rfl, by simp [lifespanStartupCommands]⟩

/-- Claim C2: in `get_stats` one instant is read from the clock exactly
once; that single reading (`clock 0`) is the base of all four windowed
cutoffs (1 day, 1 week, 30 days, 365 days in seconds) and of the ISO-8601
`timestamp` field, and any clock agreeing at reading 0 yields the identical
response, so no second clock reading influences the stats response. -/
theorem c2_stats_single_snapshot_instant (db : List ActivityRecord)
    (clock clock2 : Nat → Int) (h : clock2 0 = clock 0) :
    (statsBody db clock).2 = 1 ∧
    (statsBody db clock).1.timestamp = isoformat (clock 0) ∧
    (statsBody db clock).1.stats.daily_users =
      count_documents db (matchActiveSince false (clock 0 - 86400)) ∧
    (statsBody db clock).1.stats.weekly_users =
      count_documents db (matchActiveSince false (clock 0 - 604800)) ∧
    (statsBody db clock).1.stats.monthly_users =
      count_documents db (matchActiveSince false (clock 0 - 2592000)) ∧
    (statsBody db clock).1.stats.yearly_users =
      count_documents db (matchActiveSince false (clock 0 - 31536000)) ∧
    statsBody db clock2 = statsBody db clock ∧
    get_stats (.ok db) clock = .success (statsBody db clock).1 := by
  refine ⟨rfl, rfl, rfl, rfl, rfl, rfl, ?_, rfl⟩
  simp only [statsBody, utcnow, h]

/-- Witness for C2 on the concrete fixture database and clocks. -/
theorem c2_stats_single_snapshot_instant_witness :
    clockFix2 0 = clockFix 0 ∧
    ((statsBody dbFix clockFix).2 = 1 ∧
     (statsBody dbFix clockFix).1.timestamp = isoformat 1000 ∧
     (statsBody dbFix clockFix).1.stats.daily_users =
       count_documents dbFix (matchActiveSince false (1000 - 86400)) ∧
     (statsBody dbFix clockFix).1.stats.weekly_users =
       count_documents dbFix (matchActiveSince false (1000 - 604800)) ∧
     (statsBody dbFix clockFix).1.stats.monthly_users =
       count_documents dbFix (matchActiveSince false (1000 - 2592000)) ∧
     (statsBody dbFix clockFix).1.stats.yearly_users =
       count_documents dbFix (matchActiveSince false (1000 - 31536000)) ∧
     statsBody dbFix clockFix2 = statsBody dbFix clockFix ∧
     get_stats (.ok dbFix) clockFix = .success (statsBody dbFix clockFix).1) :=
  ⟨rfl, c2_stats_single_snapshot_instant dbFix clockFix clockFix2 rfl⟩

/-- Claim C3: for every successfully mapped admin record, the output
`auth_date` is the stored value formatted `%Y-%m-%d` exactly when the
stored `auth_date` is a datetime, and the literal `"Unknown"` in every
other case (regardless of `auth_time`); the output `auth_time` is the
stored datetime formatted `%H:%M:%S`, defaulting to the current instant
when absent. -/
theorem c3_admin_auth_date_policy (r : AdminRecord) (now : Int) (out : AdminOut)
    (h : mapAdmin now r = .ok out) :
    (∀ d, r.auth_date = some (BVal.vdt d) → out.auth_date = fmtDate d) ∧
    ((∀ d, r.auth_date ≠ some (BVal.vdt d)) → out.auth_date = "Unknown") ∧
    (r.auth_time = none → out.auth_time = fmtTime now) ∧
    (∀ t, r.auth_time = some (BVal.vdt t) → out.auth_time = fmtTime t) := by
  rcases huid : r.user_id with _ | uid
  · rw [show mapAdmin now r = .error "KeyError: user_id" by
      unfold mapAdmin pyIndex; rw [huid]; rfl] at h
    cases h
  rcases htitle : r.title with _ | title
  · rw [show mapAdmin now r = .error "KeyError: title" by
      unfold mapAdmin pyIndex; rw [huid, htitle]; rfl] at h
    cases h
  cases hst : strftimeTime (pyGetD r.auth_time (.vdt now)) with
  | error e =>
    rw [mapAdmin_err_char now r uid title e huid htitle hst] at h
    cases h
  | ok ato =>
    rw [mapAdmin_ok_char now r uid title ato huid htitle hst] at h
    cases h
    refine ⟨?_, ?_, ?_, ?_⟩
    · intro d hd; simp [authDateStr, hd]
    · intro hall
      rcases had : r.auth_date with _ | v
      · simp [authDateStr, had]
      · cases v with
        | vdt d => exact absurd had (hall d)
        | vstr s => simp [authDateStr, had]
        | vint n => simp [authDateStr, had]
        | vnull => simp [authDateStr, had]
    · intro hat
      rw [hat] at hst
      simp [pyGetD, strftimeTime] at hst
      simp [hst]
    · intro t hat
      rw [hat] at hst
      simp [pyGetD, strftimeTime] at hst
      simp [hst]

/-- Witness for C3: `admFix` has a string `auth_date` and a usable datetime
`auth_time`, yet its output `auth_date` is `"Unknown"`. -/
theorem c3_admin_auth_date_policy_witness :
    mapAdmin 0 admFix = .ok admOutFix ∧
    ((∀ d, admFix.auth_date = some (BVal.vdt d) → admOutFix.auth_date = fmtDate d) ∧
     ((∀ d, admFix.auth_date ≠ some (BVal.vdt d)) → admOutFix.auth_date = "Unknown") ∧
     (admFix.auth_time = none → admOutFix.auth_time = fmtTime 0) ∧
     (∀ t, admFix.auth_time = some (BVal.vdt t) → admOutFix.auth_time = fmtTime t)) :=
  ⟨rfl, c3_admin_auth_date_policy admFix 0 admOutFix rfl⟩

/-- Claim C4: every successful adminlist response has a non-empty `admins`
list whose first element is the constant synthetic owner entry, with all
fetched records following in their storage order. -/
theorem c4_adminlist_owner_first (db : List AdminRecord) (now : Int)
    (resp : AdminlistResponse)
    (h : get_adminlist (.ok db) now = .success resp) :
    resp.admins ≠ [] ∧
    resp.admins.head? = some ownerEntry ∧
    ∃ outs, mapE (mapAdmin now) db = .ok outs ∧ resp.admins = ownerEntry :: outs := by
  simp only [get_adminlist, handlerBoundary, Except.bind, adminlistBody] at h
  cases hm : mapE (mapAdmin now) db with
  | error e =>
    rw [hm] at h
    simp [bind, Except.bind] at h
  | ok outs =>
    rw [hm] at h
    simp only [bind, Except.bind, pure, Except.pure] at h
    cases h
    exact ⟨by simp, rfl, outs, rfl, rfl⟩

/-- Witness for C4 on the empty admin collection. -/
theorem c4_adminlist_owner_first_witness :
    get_adminlist (.ok []) 0 = .success admRespFix ∧
    (admRespFix.admins ≠ [] ∧
     admRespFix.admins.head? = some ownerEntry ∧
     ∃ outs, mapE (mapAdmin 0) [] = .ok outs ∧
       admRespFix.admins = ownerEntry :: outs) :=
  ⟨rfl, c4_adminlist_owner_first [] 0 admRespFix rfl⟩

/-- Claim C5: for every database snapshot and clock, the four windowed
counts in the stats response are nested monotonically:
daily ≤ weekly ≤ monthly ≤ yearly. -/
theorem c5_stats_windows_nested (db : List ActivityRecord) (clock : Nat → Int) :
    (statsBody db clock).1.stats.daily_users ≤
      (statsBody db clock).1.stats.weekly_users ∧
    (statsBody db clock).1.stats.weekly_users ≤
      (statsBody db clock).1.stats.monthly_users ∧
    (statsBody db clock).1.stats.monthly_users ≤
      (statsBody db clock).1.stats.yearly_users := by
  refine ⟨?_, ?_, ?_⟩ <;>
    exact List.countP_mono_left fun r _ hr => matchActiveSince_mono (by omega) r hr

/-- Claim C6: when every activity record carries exactly one boolean
`is_group` value, the stats response satisfies
`total_users + total_groups = ` number of records in the collection. -/
theorem c6_totals_partition (db : List ActivityRecord) (clock : Nat → Int)
    (h : ∀ r ∈ db, (r.is_group).isSome) :
    (statsBody db clock).1.stats.total_users +
      (statsBody db clock).1.stats.total_groups = db.length :=
  countP_group_split db h

/-- Witness for C6 on the fixture database. -/
theorem c6_totals_partition_witness :
    (∀ r ∈ dbFix, (r.is_group).isSome) ∧
    (statsBody dbFix clockFix).1.stats.total_users +
      (statsBody dbFix clockFix).1.stats.total_groups = dbFix.length :=
  ⟨by decide, c6_totals_partition dbFix clockFix (by decide)⟩

/-- Claim C7: a banlist request over an empty banned-users collection
returns a success response with `banned_users = []` and `total_banned = 0`,
never an error. -/
theorem c7_banlist_empty_ok (now : Int) :
    get_banlist (.ok []) now =
      .success
        { api_owner := "@ISmartCoder"
          api_dev := "@TheSmartDev"
          banned_users := []
          total_banned := 0
          timestamp := isoformat now } := rfl

/-- Claim C8: every successfully mapped banned-user record puts the stored
`username` into the output field `full_name`, falling back to the
stringified `user_id` when `username` is absent, and renders `reason` and
`ban_date` as the literal `"Undefined"` when absent (stored values pass
through otherwise). -/
theorem c8_banlist_field_mapping (u : BannedUser) (out : BanOut)
    (h : mapBanned u = .ok out) :
    (∀ v, u.username = some v → out.full_name = v) ∧
    (u.username = none →
      ∃ uid, u.user_id = some uid ∧ out.full_name = .vstr (pyStr uid)) ∧
    (∀ v, u.reason = some v → out.reason = v) ∧
    (u.reason = none → out.reason = .vstr "Undefined") ∧
    (∀ v, u.ban_date = some v → out.ban_date = v) ∧
    (u.ban_date = none → out.ban_date = .vstr "Undefined") := by
  cases huid : u.user_id with
  | none => simp [mapBanned, pyIndex, huid, bind, Except.bind] at h
  | some uid =>
    simp only [mapBanned, pyIndex, huid, bind, Except.bind, pure, Except.pure] at h
    cases h
    refine ⟨?_, ?_, ?_, ?_, ?_, ?_⟩
    · intro v hv; simp [pyGetD, hv]
    · intro hu; exact ⟨uid, rfl, by simp [pyGetD, hu]⟩
    · intro v hv; simp [pyGetD, hv]
    · intro hu; simp [pyGetD, hu]
    · intro v hv; simp [pyGetD, hv]
    · intro hu; simp [pyGetD, hu]

/-- Witness for C8: a record with only `user_id` renders
`full_name = "42"`, `reason = "Undefined"`, `ban_date = "Undefined"`. -/
theorem c8_banlist_field_mapping_witness :
    mapBanned banFix = .ok banOutFix ∧
    ((∀ v, banFix.username = some v → banOutFix.full_name = v) ∧
     (banFix.username = none →
       ∃ uid, banFix.user_id = some uid ∧ banOutFix.full_name = .vstr (pyStr uid)) ∧
     (∀ v, banFix.reason = some v → banOutFix.reason = v) ∧
     (banFix.reason = none → banOutFix.reason = .vstr "Undefined") ∧
     (∀ v, banFix.ban_date = some v → banOutFix.ban_date = v) ∧
     (banFix.ban_date = none → banOutFix.ban_date = .vstr "Undefined")) :=
  ⟨rfl, c8_banlist_field_mapping banFix banOutFix rfl⟩

/-- Claim C9: for each of the four endpoints, any internal failure is
caught at the handler boundary and converted into an error response whose
detail is the fixed generic string of that handler, independent of the
exception value, so the raw exception is never exposed; `get_index` maps a
missing asset to its fixed 404 and any other read failure to its fixed 500. -/
theorem c9_handler_boundary_generic_errors :
    (∀ e clock, get_stats (.error e) clock =
      .httpError 500 "Failed to retrieve stats") ∧
    (∀ fetch clock, (∃ resp, get_stats fetch clock = .success resp) ∨
      get_stats fetch clock = .httpError 500 "Failed to retrieve stats") ∧
    (∀ e now, get_banlist (.error e) now =
      .httpError 500 "Failed to retrieve banlist") ∧
    (∀ fetch now, (∃ resp, get_banlist fetch now = .success resp) ∨
      get_banlist fetch now = .httpError 500 "Failed to retrieve banlist") ∧
    (∀ e now, get_adminlist (.error e) now =
      .httpError 500 "Failed to retrieve adminlist") ∧
    (∀ fetch now, (∃ resp, get_adminlist fetch now = .success resp) ∨
      get_adminlist fetch now = .httpError 500 "Failed to retrieve adminlist") ∧
    (get_index (.error .fileNotFound) = .httpError 404 "Index file not found") ∧
    (∀ s, get_index (.error (.other s)) =
      .httpError 500 "Failed to serve index page") ∧
    (∀ html, get_index (.ok html) = .success html) := by
  refine ⟨fun e clock => rfl, ?_, fun e now => rfl, ?_, fun e now => rfl, ?_,
    rfl, fun s => rfl, fun html => rfl⟩
  · intro fetch clock
    cases fetch with
    | error e => exact Or.inr rfl
    | ok db => exact Or.inl ⟨_, rfl⟩
  · intro fetch now
    cases hb : fetch.bind (fun db => banlistBody db now) with
    | ok resp => exact Or.inl ⟨resp, by simp [get_banlist, handlerBoundary, hb]⟩
    | error e => exact Or.inr (by simp [get_banlist, handlerBoundary, hb])
  · intro fetch now
    cases hb : fetch.bind (fun db => adminlistBody db now) with
    | ok resp => exact Or.inl ⟨resp, by simp [get_adminlist, handlerBoundary, hb]⟩
    | error e => exact Or.inr (by simp [get_adminlist, handlerBoundary, hb])

/-- Claim C10: in every successful banlist response `total_banned` equals
the length of `banned_users`, and in every successful adminlist response
`total_admins` equals the length of `admins`, which is the number of
fetched records plus one synthetic entry. -/
theorem c10_count_fields_match_lengths (banDb : List BannedUser)
    (admDb : List AdminRecord) (now now2 : Int)
    (bresp : BanlistResponse) (aresp : AdminlistResponse)
    (hb : get_banlist (.ok banDb) now = .success bresp)
    (ha : get_adminlist (.ok admDb) now2 = .success aresp) :
    bresp.total_banned = bresp.banned_users.length ∧
    aresp.total_admins = aresp.admins.length ∧
    aresp.admins.length = admDb.length + 1 := by
  constructor
  · simp only [get_banlist, handlerBoundary, Except.bind, banlistBody] at hb
    by_cases hemp : banDb.isEmpty
    · simp only [hemp, if_pos] at hb
      cases hb
      rfl
    · simp only [hemp, if_neg, Bool.false_eq_true, not_false_iff, reduceIte] at hb
      cases hm : mapE mapBanned banDb with
      | error e => rw [hm] at hb; simp [bind, Except.bind] at hb
      | ok outs =>
        rw [hm] at hb
        simp only [bind, Except.bind, pure, Except.pure] at hb
        cases hb
        simp [mapE_ok_length mapBanned banDb outs hm]
  · simp only [get_adminlist, handlerBoundary, Except.bind, adminlistBody] at ha
    cases hm : mapE (mapAdmin now2) admDb with
    | error e => rw [hm] at ha; simp [bind, Except.bind] at ha
    | ok outs =>
      rw [hm] at ha
      simp only [bind, Except.bind, pure, Except.pure] at ha
      cases ha
      simp [mapE_ok_length (mapAdmin now2) admDb outs hm]

/-- Witness for C10 on concrete one-record collections. -/
theorem c10_count_fields_match_lengths_witness :
    get_banlist (.ok [banFix]) 0 = .success banRespFix ∧
    get_adminlist (.ok [admFix]) 0 = .success admRespFix2 ∧
    (banRespFix.total_banned = banRespFix.banned_users.length ∧
     admRespFix2.total_admins = admRespFix2.admins.length ∧
     admRespFix2.admins.length = [admFix].length + 1) :=
  ⟨rfl, rfl,
    c10_count_fields_match_lengths [banFix] [admFix] 0 0 banRespFix admRespFix2
      rfl rfl⟩

end SmartTool
